import Mathlib

/-!
Shallow embedding of the news-reading screen of the repository
(`NewsReaderScreen` in `src/unnamed/part_000`): the in-memory TTL cache
(`SimpleCache`), the article validity filter, and the feed-controller
operations `loadInitialData`, `onRefresh` and `loadMore`.

Modelling conventions:
* Timestamps are natural numbers (milliseconds); `Date.now()` becomes an
  explicit `now : Nat` argument threaded to each operation.  JS computes
  `age = Date.now() - timestamp` which is non-negative whenever the clock is
  monotone; Nat subtraction truncates at zero, which coincides with the
  fresh/stale decision JS makes in that case.
* The JS `Map<string, {data, timestamp}>` becomes an association list with
  unique keys (`set` erases the key before consing).
* The asynchronous `fetch` is modelled by a `FetchResult` argument: either the
  raw article list of the decoded JSON envelope when `data.status === 'ok'`,
  or the error message thrown (network error or non-ok status).
* React `useState` setters become functional record updates; each operation
  maps the pre-state (plus the fetch outcome and the clock) to the post-state.
  `loadMore` additionally reports which page it requested from the remote
  source (`none` when its guard suppressed the fetch).
-/

/-- An element of the `articles` payload (`type Article` in the source). -/
structure Article where
  title : String
  description : String
  url : String
  urlToImage : String
  publishedAt : String
  sourceName : String
  author : String
deriving DecidableEq, Repr

/-- `CACHE_DURATION = 5 * 60 * 1000` milliseconds. -/
def CACHE_DURATION : Nat := 5 * 60 * 1000

/-- One stored value of the cache map: `{ data, timestamp }`. -/
structure CacheEntry where
  data : List Article
  timestamp : Nat
deriving DecidableEq, Repr

/-- The private `Map<string, {data, timestamp}>` of `SimpleCache`. -/
abbrev SimpleCache : Type := List (String × CacheEntry)

/-- `Map.get`: first entry with the given key. -/
def mapFind : SimpleCache → String → Option CacheEntry
  | [], _ => none
  | (k, e) :: rest, key => if k == key then some e else mapFind rest key

/-- `Map.delete`: drop the entry with the given key. -/
def mapErase (c : SimpleCache) (key : String) : SimpleCache :=
  c.filter (fun p => !(p.1 == key))

/-- `SimpleCache.set`: store `data` under `key` with the current timestamp,
replacing any prior entry. -/
def cacheSet (c : SimpleCache) (key : String) (data : List Article)
    (now : Nat) : SimpleCache :=
  (key, { data := data, timestamp := now }) :: mapErase c key

/-- `SimpleCache.get`: return the payload when the entry exists and its age is
at most `CACHE_DURATION`; an expired entry is deleted (lazy eviction) and
`null` is returned.  The pair carries the possibly-updated map. -/
def cacheGet (c : SimpleCache) (key : String) (now : Nat) :
    Option (List Article) × SimpleCache :=
  match mapFind c key with
  | none => (none, c)
  | some e =>
      if CACHE_DURATION < now - e.timestamp then (none, mapErase c key)
      else (some e.data, c)

/-- `SimpleCache.has`: the entry exists and `age <= CACHE_DURATION`.  The
source method only reads the map (no delete), so it returns a bare Bool. -/
def cacheHas (c : SimpleCache) (key : String) (now : Nat) : Bool :=
  match mapFind c key with
  | none => false
  | some e => now - e.timestamp ≤ CACHE_DURATION

/-- `SimpleCache.clear`. -/
def cacheClear : SimpleCache := []

/-- `PAGE_SIZE = 20`. -/
def PAGE_SIZE : Nat := 20

/-- The per-article predicate of the filter in `fetchNews`: truthy title and
description, neither equal to the literal sentinel. -/
def isValidArticle (a : Article) : Bool :=
  !(a.title == "") && !(a.description == "") &&
    !(a.title == "[Removed]") && !(a.description == "[Removed]")

/-- `data.articles.filter(...)` of `fetchNews`. -/
def filterValid (l : List Article) : List Article :=
  l.filter isValidArticle

/-- Outcome of the remote request: the decoded article list when
`data.status === 'ok'`, otherwise the thrown error message. -/
inductive FetchResult where
  | ok (raw : List Article)
  | err (msg : String)
deriving DecidableEq, Repr

/-- The component state held in `useState` hooks, together with the global
`newsCache` the screen reads and writes. -/
structure FeedState where
  articles : List Article
  loading : Bool
  refreshing : Bool
  loadingMore : Bool
  page : Nat
  hasMore : Bool
  error : Option String
  cache : SimpleCache
deriving DecidableEq, Repr

/-- The state of a freshly mounted screen (initial `useState` values) with an
empty global cache. -/
def initFeedState : FeedState :=
  { articles := [], loading := false, refreshing := false,
    loadingMore := false, page := 1, hasMore := true, error := none,
    cache := [] }

/-- `fetchNews(pageNum, isRefresh)`: on a successful response, filter the
articles and (only when `pageNum === 1 && isRefresh`) write the filtered
list to the cache via `saveToCache`; on failure propagate the message. -/
def fetchNews (c : SimpleCache) (pageNum : Nat) (isRefresh : Bool)
    (response : FetchResult) (now : Nat) :
    Except String (List Article × SimpleCache) :=
  match response with
  | .err msg => .error msg
  | .ok raw =>
      let validArticles := filterValid raw
      let c1 := if pageNum == 1 && isRefresh
                then cacheSet c "articles" validArticles now else c
      .ok (validArticles, c1)

/-- The fetch-from-API branch of `loadInitialData` (after the cache check),
including the `catch` block's cache-fallback read via `loadFromCache`. -/
def loadInitialFetch (s : FeedState) (response : FetchResult) (now : Nat) :
    FeedState :=
  match fetchNews s.cache 1 true response now with
  | .ok (freshArticles, c1) =>
      { s with articles := freshArticles, page := 2,
               hasMore := freshArticles.length == PAGE_SIZE,
               loading := false, cache := c1 }
  | .error msg =>
      let r := cacheGet s.cache "articles" now
      let cachedArticles := r.1.getD []
      if 0 < cachedArticles.length then
        { s with articles := cachedArticles,
                 error := some "Showing cached articles (offline mode)",
                 loading := false, cache := r.2 }
      else
        { s with error := some msg, loading := false, cache := r.2 }

/-- `loadInitialData`: set the loading flag and clear the error, serve a
fresh non-empty cache (`isCacheValid` / `loadFromCache`) with `page := 2`,
otherwise fetch page 1 with `isRefresh = true`. -/
def loadInitialData (s : FeedState) (response : FetchResult) (now : Nat) :
    FeedState :=
  let s0 := { s with loading := true, error := none }
  if cacheHas s0.cache "articles" now then
    let r := cacheGet s0.cache "articles" now
    let cachedArticles := r.1.getD []
    if 0 < cachedArticles.length then
      { s0 with articles := cachedArticles, page := 2, loading := false,
                cache := r.2 }
    else loadInitialFetch s0 response now
  else loadInitialFetch s0 response now

/-- `onRefresh`: always fetch page 1 with `isRefresh = true`; on success
replace the list, reset `page := 2` and recompute `hasMore`; on failure only
record the error message. -/
def onRefresh (s : FeedState) (response : FetchResult) (now : Nat) :
    FeedState :=
  let s0 := { s with refreshing := true, error := none }
  match fetchNews s0.cache 1 true response now with
  | .ok (freshArticles, c1) =>
      { s0 with articles := freshArticles, page := 2,
                hasMore := freshArticles.length == PAGE_SIZE,
                refreshing := false, cache := c1 }
  | .error msg =>
      { s0 with error := some msg, refreshing := false }

/-- `loadMore`: no-op when `loadingMore || !hasMore`; otherwise fetch
`page` with `isRefresh = false`, and on success either latch
`hasMore := false` on an empty page or append, advance `page` and recompute
`hasMore`; on failure leave all list state untouched (only an alert is
shown).  The second component is the page requested from the remote source,
`none` when no fetch was issued. -/
def loadMore (s : FeedState) (response : FetchResult) (now : Nat) :
    FeedState × Option Nat :=
  if s.loadingMore || !s.hasMore then (s, none)
  else
    let s0 := { s with loadingMore := true }
    match fetchNews s0.cache s0.page false response now with
    | .ok (moreArticles, c1) =>
        if moreArticles.length == 0 then
          ({ s0 with hasMore := false, loadingMore := false, cache := c1 },
           some s.page)
        else
          ({ s0 with articles := s0.articles ++ moreArticles,
                     page := s0.page + 1,
                     hasMore := moreArticles.length == PAGE_SIZE,
                     loadingMore := false, cache := c1 },
           some s.page)
    | .error _ => ({ s0 with loadingMore := false }, some s.page)

/-- A fold of `loadMore` steps (successive load-more gestures with arbitrary
fetch outcomes and clock readings), discarding the issued-page report. -/
def loadMoreSeq (s : FeedState) (l : List (FetchResult × Nat)) : FeedState :=
  l.foldl (fun t p => (loadMore t p.1 p.2).1) s

/-- The operations the presentation layer can invoke on the screen, plus a
remount (the component state resets, the module-level `newsCache`
persists). -/
inductive Op where
  | initialLoad (response : FetchResult) (now : Nat)
  | refresh (response : FetchResult) (now : Nat)
  | more (response : FetchResult) (now : Nat)
  | remount
deriving Repr

/-- One interaction step of the screen. -/
def stepOp (s : FeedState) (op : Op) : FeedState :=
  match op with
  | .initialLoad r now => loadInitialData s r now
  | .refresh r now => onRefresh s r now
  | .more r now => (loadMore s r now).1
  | .remount => { initFeedState with cache := s.cache }

/-- The state after a sequence of interactions from a fresh mount with an
empty cache. -/
def runOps (ops : List Op) : FeedState :=
  ops.foldl stepOp initFeedState

/-- Every payload stored in the cache consists of valid articles only. -/
def cacheAllValid (c : SimpleCache) : Bool :=
  c.all (fun p => p.2.data.all isValidArticle)

/-- A concrete valid article, used to instantiate hypotheses. -/
def sampleArticle : Article :=
  { title := "Title", description := "Desc", url := "u", urlToImage := "",
    publishedAt := "2024-01-01", sourceName := "src", author := "a" }

-- ## Helper lemmas

theorem mapFind_cacheSet_self (c : SimpleCache) (key : String)
    (data : List Article) (t : Nat) :
    mapFind (cacheSet c key data t) key = some { data := data, timestamp := t } := by
  simp [cacheSet, mapFind]

theorem mapFind_mapErase_self (c : SimpleCache) (key : String) :
    mapFind (mapErase c key) key = none := by
  induction c with
  | nil => rfl
  | cons p rest ih =>
      by_cases h : p.1 == key
      · simpa [mapErase, h] using ih
      · simpa [mapErase, mapFind, h] using ih

theorem cacheGet_eq_of_fst_some (c : SimpleCache) (key : String) (now : Nat)
    (x : List Article) (h : (cacheGet c key now).1 = some x) :
    cacheGet c key now = (some x, c) := by
  unfold cacheGet at h ⊢
  cases hf : mapFind c key with
  | none => simp [hf] at h
  | some e =>
      by_cases hd : CACHE_DURATION < now - e.timestamp
      · simp [hf, hd] at h
      · simp [hf, hd] at h ⊢
        exact h

theorem loadMore_noop (s : FeedState) (r : FetchResult) (now : Nat)
    (h : s.loadingMore = true ∨ s.hasMore = false) :
    loadMore s r now = (s, none) := by
  unfold loadMore
  rcases h with h | h <;> simp [h]

-- ## Theorems

/-- **C9**: the article filter is idempotent: filtering an already-filtered
list yields the same list. -/
theorem C9_filter_idempotent (l : List Article) :
    filterValid (filterValid l) = filterValid l := by
  simp [filterValid, List.filter_filter]

/-- **C5**: for every payload stored via `set`, a `get` after the TTL window
has elapsed returns absent, deletes the entry, and a subsequent `has` returns
false; a `get` within the TTL window (age ≤ TTL) returns the stored payload
unchanged. -/
theorem C5_ttl_roundtrip (c : SimpleCache) (key : String)
    (payload : List Article) (t now : Nat) :
    (CACHE_DURATION < now - t →
       (cacheGet (cacheSet c key payload t) key now).1 = none ∧
       mapFind (cacheGet (cacheSet c key payload t) key now).2 key = none ∧
       cacheHas (cacheGet (cacheSet c key payload t) key now).2 key now = false) ∧
    (now - t ≤ CACHE_DURATION →
       (cacheGet (cacheSet c key payload t) key now).1 = some payload) := by
  have hf := mapFind_cacheSet_self c key payload t
  constructor
  · intro h
    have hg : cacheGet (cacheSet c key payload t) key now =
        (none, mapErase (cacheSet c key payload t) key) := by
      simp [cacheGet, hf, h]
    refine ⟨by simp [hg], by simp [hg, mapFind_mapErase_self], ?_⟩
    simp [hg, cacheHas, mapFind_mapErase_self]
  · intro h
    simp [cacheGet, hf, Nat.not_lt.mpr h]

/-- **C5 witness**: instantiated at a payload stored at time 0, read back
stale at 301 s and fresh at 60 s. -/
theorem C5_ttl_roundtrip_witness :
    ((cacheGet (cacheSet [] "articles" [sampleArticle] 0) "articles" 301000).1 = none ∧
     mapFind (cacheGet (cacheSet [] "articles" [sampleArticle] 0) "articles" 301000).2
       "articles" = none ∧
     cacheHas (cacheGet (cacheSet [] "articles" [sampleArticle] 0) "articles" 301000).2
       "articles" 301000 = false) ∧
    (cacheGet (cacheSet [] "articles" [sampleArticle] 0) "articles" 60000).1 =
      some [sampleArticle] :=
  ⟨(C5_ttl_roundtrip [] "articles" [sampleArticle] 0 301000).1 (by decide),
   (C5_ttl_roundtrip [] "articles" [sampleArticle] 0 60000).2 (by decide)⟩

/-- **C6**: `has` is true exactly when `get` would return a present payload;
`has` takes the map and returns only a boolean, so it cannot evict or
otherwise change the map, even on an expired entry. -/
theorem C6_has_iff_get (c : SimpleCache) (key : String) (now : Nat) :
    cacheHas c key now = (cacheGet c key now).1.isSome := by
  unfold cacheHas cacheGet
  cases hf : mapFind c key with
  | none => simp
  | some e =>
      by_cases hd : CACHE_DURATION < now - e.timestamp
      · simp [hd]
        omega
      · simp [hd]
        omega

/-- **C7**: a `loadMore` while a previous one is in flight, or while
`hasMore` is false, issues no fetch and leaves the whole state unchanged. -/
theorem C7_loadMore_guard_noop (s : FeedState) (r : FetchResult) (now : Nat)
    (h : s.loadingMore = true ∨ s.hasMore = false) :
    loadMore s r now = (s, none) :=
  loadMore_noop s r now h

/-- **C7 witness**: instantiated at a fresh mount whose `hasMore` is
false. -/
theorem C7_loadMore_guard_noop_witness :
    loadMore { initFeedState with hasMore := false } (.err "e") 0 =
      ({ initFeedState with hasMore := false }, none) :=
  C7_loadMore_guard_noop { initFeedState with hasMore := false } (.err "e") 0
    (Or.inr rfl)

/-- **C2**: a failing refresh and a failing load-more leave the displayed
article list, `nextPage` and `hasMore` unchanged (the list, once populated,
is never cleared by a failed operation). -/
theorem C2_error_preserves_list (s : FeedState) (msg : String) (now : Nat) :
    ((onRefresh s (.err msg) now).articles = s.articles ∧
     (onRefresh s (.err msg) now).page = s.page ∧
     (onRefresh s (.err msg) now).hasMore = s.hasMore) ∧
    ((loadMore s (.err msg) now).1.articles = s.articles ∧
     (loadMore s (.err msg) now).1.page = s.page ∧
     (loadMore s (.err msg) now).1.hasMore = s.hasMore) := by
  constructor
  · simp [onRefresh, fetchNews]
  · unfold loadMore
    by_cases h : (s.loadingMore || !s.hasMore) = true
    · simp [h]
    · simp [h, fetchNews]

/-- **C3**: a fetched page whose valid-article count is below `PAGE_SIZE`
latches `hasMore := false`, whether observed by `loadMore`, by `onRefresh`
or by a fetching initial load; once `hasMore` is false, any sequence of
further load-more gestures leaves the state untouched (so `hasMore` stays
false); only a refresh (or a fetching initial load) can set it back to true,
as a full refresh page does. -/
theorem C3_hasMore_latch (s : FeedState) (raw : List Article)
    (now : Nat) (l : List (FetchResult × Nat)) :
    ((filterValid raw).length < PAGE_SIZE →
       (loadMore s (.ok raw) now).2.isSome = true →
       (loadMore s (.ok raw) now).1.hasMore = false) ∧
    ((filterValid raw).length < PAGE_SIZE →
       (onRefresh s (.ok raw) now).hasMore = false) ∧
    ((filterValid raw).length < PAGE_SIZE →
       cacheHas s.cache "articles" now = false →
       (loadInitialData s (.ok raw) now).hasMore = false) ∧
    (s.hasMore = false → loadMoreSeq s l = s) ∧
    ((filterValid raw).length = PAGE_SIZE →
       (onRefresh s (.ok raw) now).hasMore = true) := by
  have hne : (filterValid raw).length < PAGE_SIZE →
      ((filterValid raw).length == PAGE_SIZE) = false := by
    intro h
    exact beq_eq_false_iff_ne.mpr (Nat.ne_of_lt h)
  refine ⟨?_, ?_, ?_, ?_, ?_⟩
  · intro h _
    unfold loadMore
    by_cases hg : (s.loadingMore || !s.hasMore) = true
    · simp [hg]
      simp [loadMore, hg] at *
    · by_cases hz : (filterValid raw).length == 0
      · simp [hg, fetchNews, hz]
      · simp [hg, fetchNews, hz, hne h]
  · intro h
    simp [onRefresh, fetchNews, hne h]
  · intro h hc
    unfold loadInitialData
    simp [hc, loadInitialFetch, fetchNews, hne h]
  · intro h
    induction l with
    | nil => rfl
    | cons p rest ih =>
        have : loadMore s p.1 p.2 = (s, none) :=
          loadMore_noop s p.1 p.2 (Or.inr h)
        simpa [loadMoreSeq, this] using ih
  · intro h
    simp [onRefresh, fetchNews, h]

/-- **C3 witness**: a short (empty) page observed by a load-more latches
`hasMore` to false; a further load-more from a latched state changes
nothing; a full refresh page sets `hasMore` back to true. -/
theorem C3_hasMore_latch_witness :
    (loadMore initFeedState (.ok []) 0).1.hasMore = false ∧
    loadMoreSeq { initFeedState with hasMore := false } [(.err "e", 0)] =
      { initFeedState with hasMore := false } ∧
    (onRefresh initFeedState (.ok (List.replicate 20 sampleArticle)) 0).hasMore
      = true :=
  ⟨(C3_hasMore_latch initFeedState [] 0 []).1 (by decide) (by decide),
   (C3_hasMore_latch { initFeedState with hasMore := false } [] 0
      [(.err "e", 0)]).2.2.2.1 rfl,
   (C3_hasMore_latch initFeedState (List.replicate 20 sampleArticle) 0
      []).2.2.2.2 (by decide)⟩

/-- **C4**: with an empty cache, a successful initial load fetching exactly
`PAGE_SIZE` valid articles displays them all, sets `nextPage = 2` and
`hasMore = true`, and writes them to the cache (the initial load calls
`fetchNews(1, true)`, a cache-writing event just like a refresh). -/
theorem C4_initial_load_success (s : FeedState) (raw : List Article)
    (now : Nat) (hc : s.cache = []) (hv : raw.all isValidArticle = true)
    (hl : raw.length = PAGE_SIZE) :
    (loadInitialData s (.ok raw) now).articles = raw ∧
    (loadInitialData s (.ok raw) now).page = 2 ∧
    (loadInitialData s (.ok raw) now).hasMore = true ∧
    mapFind (loadInitialData s (.ok raw) now).cache "articles" =
      some { data := raw, timestamp := now } := by
  have hfv : filterValid raw = raw := by
    rw [filterValid, List.filter_eq_self]
    intro a ha
    exact List.all_eq_true.mp hv a ha
  unfold loadInitialData
  simp [cacheHas, loadInitialFetch, fetchNews, hfv, hl, hc, cacheSet,
    mapErase, mapFind]

/-- **C4 witness**: instantiated at a fresh mount fetching 20 copies of a
valid article. -/
theorem C4_initial_load_success_witness :
    (loadInitialData initFeedState (.ok (List.replicate 20 sampleArticle))
        0).articles = List.replicate 20 sampleArticle ∧
    (loadInitialData initFeedState (.ok (List.replicate 20 sampleArticle))
        0).page = 2 ∧
    (loadInitialData initFeedState (.ok (List.replicate 20 sampleArticle))
        0).hasMore = true ∧
    mapFind (loadInitialData initFeedState
        (.ok (List.replicate 20 sampleArticle)) 0).cache "articles" =
      some { data := List.replicate 20 sampleArticle, timestamp := 0 } :=
  C4_initial_load_success initFeedState (List.replicate 20 sampleArticle) 0
    rfl (by decide) (by decide)

/-- **C10**: when the initial load is served from a fresh non-empty cache,
only the article list and `nextPage` change: `hasMore` keeps its mount-time
value `true` (it is not recomputed from the cached list's length), the error
stays clear, the cache is untouched, and a subsequent load-more still issues
a fetch for page 2. -/
theorem C10_cache_serve_frame (c : SimpleCache) (now now2 : Nat)
    (r r2 : FetchResult) (cached : List Article)
    (hhas : cacheHas c "articles" now = true)
    (hget : (cacheGet c "articles" now).1 = some cached)
    (hne : 0 < cached.length) :
    (loadInitialData { initFeedState with cache := c } r now).articles =
      cached ∧
    (loadInitialData { initFeedState with cache := c } r now).page = 2 ∧
    (loadInitialData { initFeedState with cache := c } r now).hasMore =
      ({ initFeedState with cache := c } : FeedState).hasMore ∧
    (loadInitialData { initFeedState with cache := c } r now).hasMore = true ∧
    (loadInitialData { initFeedState with cache := c } r now).cache = c ∧
    (loadInitialData { initFeedState with cache := c } r now).error = none ∧
    (loadMore (loadInitialData { initFeedState with cache := c } r now) r2
        now2).2 = some 2 := by
  have hg : cacheGet c "articles" now = (some cached, c) :=
    cacheGet_eq_of_fst_some c "articles" now cached hget
  have hs : loadInitialData { initFeedState with cache := c } r now =
      { initFeedState with articles := cached, page := 2, cache := c } := by
    unfold loadInitialData
    simp [hhas, hg, hne]
    exact ⟨rfl, rfl⟩
  rw [hs]
  refine ⟨rfl, rfl, rfl, rfl, rfl, rfl, ?_⟩
  unfold loadMore
  cases r2 with
  | ok raw =>
      by_cases hz : (filterValid raw).length == 0 <;>
        simp [fetchNews, initFeedState, hz]
  | err msg => simp [fetchNews, initFeedState]

/-- **C10 witness**: instantiated at a cache holding a single article stored
at time 0, read 60 s later (fresh), with both fetch outcomes failing. -/
theorem C10_cache_serve_frame_witness :
    (loadInitialData { initFeedState with
        cache := cacheSet [] "articles" [sampleArticle] 0 }
        (.err "x") 60000).articles = [sampleArticle] ∧
    (loadInitialData { initFeedState with
        cache := cacheSet [] "articles" [sampleArticle] 0 }
        (.err "x") 60000).hasMore = true ∧
    (loadMore (loadInitialData { initFeedState with
        cache := cacheSet [] "articles" [sampleArticle] 0 }
        (.err "x") 60000) (.err "y") 60000).2 = some 2 := by
  have h := C10_cache_serve_frame (cacheSet [] "articles" [sampleArticle] 0)
    60000 60000 (.err "x") (.err "y") [sampleArticle] (by decide) (by decide)
    (by decide)
  exact ⟨h.1, h.2.2.2.1, h.2.2.2.2.2.2⟩

theorem filterValid_all (l : List Article) :
    (filterValid l).all isValidArticle = true := by
  rw [filterValid, List.all_eq_true]
  intro a ha
  exact (List.mem_filter.mp ha).2

theorem cacheAllValid_mapErase (c : SimpleCache) (k : String)
    (h : cacheAllValid c = true) : cacheAllValid (mapErase c k) = true := by
  rw [cacheAllValid, List.all_eq_true] at h ⊢
  intro p hp
  exact h p (List.mem_filter.mp hp).1

theorem cacheAllValid_cacheSet (c : SimpleCache) (k : String)
    (l : List Article) (t : Nat) (h : cacheAllValid c = true)
    (hl : l.all isValidArticle = true) :
    cacheAllValid (cacheSet c k l t) = true := by
  rw [cacheAllValid, List.all_eq_true] at h ⊢
  intro p hp
  rcases List.mem_cons.mp hp with hp | hp
  · rw [hp]
    exact hl
  · exact h p (List.mem_filter.mp hp).1

theorem cacheAllValid_cacheGet_snd (c : SimpleCache) (key : String)
    (now : Nat) (h : cacheAllValid c = true) :
    cacheAllValid (cacheGet c key now).2 = true := by
  unfold cacheGet
  cases hf : mapFind c key with
  | none => simpa using h
  | some e =>
      by_cases hd : CACHE_DURATION < now - e.timestamp
      · simpa [hd] using cacheAllValid_mapErase c key h
      · simpa [hd] using h

theorem stepOp_preserves (s : FeedState) (op : Op)
    (h : cacheAllValid s.cache = true) :
    cacheAllValid (stepOp s op).cache = true := by
  cases op with
  | remount => exact h
  | refresh r now =>
      cases r with
      | ok raw =>
          simpa [stepOp, onRefresh, fetchNews] using
            cacheAllValid_cacheSet s.cache "articles" (filterValid raw) now h
              (filterValid_all raw)
      | err msg => simpa [stepOp, onRefresh, fetchNews] using h
  | more r now =>
      unfold stepOp loadMore
      by_cases hg : (s.loadingMore || !s.hasMore) = true
      · simpa [hg] using h
      · cases r with
        | ok raw =>
            by_cases hz : (filterValid raw).length == 0 <;>
              simpa [hg, fetchNews, hz] using h
        | err msg => simpa [hg, fetchNews] using h
  | initialLoad r now =>
      unfold stepOp loadInitialData
      by_cases hc : cacheHas s.cache "articles" now = true
      · by_cases hn :
          0 < ((cacheGet s.cache "articles" now).1.getD []).length
        · simpa [hc, hn] using cacheAllValid_cacheGet_snd s.cache "articles" now h
        · cases r with
          | ok raw =>
              simpa [hc, hn, loadInitialFetch, fetchNews] using
                cacheAllValid_cacheSet s.cache "articles" (filterValid raw)
                  now h (filterValid_all raw)
          | err msg =>
              simpa [hc, hn, loadInitialFetch, fetchNews] using
                cacheAllValid_cacheGet_snd s.cache "articles" now h
      · cases r with
        | ok raw =>
            simpa [hc, loadInitialFetch, fetchNews] using
              cacheAllValid_cacheSet s.cache "articles" (filterValid raw)
                now h (filterValid_all raw)
        | err msg =>
            by_cases hn :
              0 < ((cacheGet s.cache "articles" now).1.getD []).length
            · simpa [hc, loadInitialFetch, fetchNews, hn] using
                cacheAllValid_cacheGet_snd s.cache "articles" now h
            · simpa [hc, loadInitialFetch, fetchNews, hn] using
                cacheAllValid_cacheGet_snd s.cache "articles" now h

theorem foldl_stepOp_preserves (ops : List Op) :
    ∀ s : FeedState, cacheAllValid s.cache = true →
      cacheAllValid (ops.foldl stepOp s).cache = true := by
  induction ops with
  | nil => intro s h; exact h
  | cons op rest ih => intro s h; exact ih _ (stepOp_preserves s op h)

/-- **C8**: in every state reachable from a fresh mount by any sequence of
initial loads, refreshes, load-mores and remounts, every payload stored in
the cache consists solely of valid articles (non-empty title and
description, neither equal to the sentinel): every cache write goes through
the filter first. -/
theorem C8_cache_only_valid (ops : List Op) :
    cacheAllValid (runOps ops).cache = true :=
  foldl_stepOp_preserves ops initFeedState rfl

/-- A screen state whose cache holds one non-empty article list stored at
time 0 — stale once the clock passes `CACHE_DURATION`. -/
def staleCacheState : FeedState :=
  { initFeedState with cache := cacheSet [] "articles" [sampleArticle] 0 }

/-- **C1**: evaluation at the failing input.  The cache holds a non-empty
article list stored at time 0; at `now = 301000` ms (age 301 s > TTL 300 s)
the entry is stale, and the initial load's fetch fails.  Contrary to the
claim, the fallback read goes through `get` — which applies the freshness
check and evicts the stale entry — so the displayed list stays empty (not
the cached list) and the error is the fetch's own message, not the
offline-mode banner. -/
theorem C1_fallback_dead_at_stale_cache :
    mapFind staleCacheState.cache "articles" =
      some { data := [sampleArticle], timestamp := 0 } ∧
    (loadInitialData staleCacheState (.err "Network error occurred")
        301000).articles = [] ∧
    (loadInitialData staleCacheState (.err "Network error occurred")
        301000).articles ≠ [sampleArticle] ∧
    (loadInitialData staleCacheState (.err "Network error occurred")
        301000).error = some "Network error occurred" ∧
    (loadInitialData staleCacheState (.err "Network error occurred")
        301000).error ≠ some "Showing cached articles (offline mode)" := by
  decide
